import Mathlib

/-
Shallow embedding of `src/chatbot.py`: the Message hierarchy and its
metadata views, the phone/username recipient validators, the four
channel `send` routines, and the `send_message_to_channel` dispatcher.
Python strings are modelled as `List Char`; Python's `datetime` is an
opaque `Nat` timestamp; a Python `dict` is an insertion-ordered
association list; raised exceptions are modelled with `Except`.
-/

namespace Chatbot

/-- Python `str.strip` whitespace set (ASCII part: space, tab, newline,
carriage return, vertical tab, form feed). -/
def pyIsSpace (c : Char) : Bool :=
  c == ' ' || c == '\t' || c == '\n' || c == '\r' || c == '\x0b' || c == '\x0c'

/-- Python `str.strip()`: drop leading and trailing whitespace. -/
def pyStrip (s : List Char) : List Char :=
  (((s.dropWhile pyIsSpace).reverse).dropWhile pyIsSpace).reverse

/-- Python `str.isdigit()` (digits modelled as ASCII `0`-`9`):
true iff the string is non-empty and every character is a digit. -/
def pyIsdigit (s : List Char) : Bool :=
  !s.isEmpty && s.all Char.isDigit

/-- Python `str.startswith` for a single-character needle. -/
def pyStartswith (s : List Char) (c : Char) : Bool :=
  match s with
  | [] => false
  | a :: _ => a == c

/-- A value stored in a metadata dict: the code stores strings and,
for `duration_seconds`, an int. -/
inductive MetaVal where
  | str (s : String)
  | int (n : Int)
deriving DecidableEq

/-- A Python dict with string keys, as an insertion-ordered association list. -/
def PyDict := List (String × MetaVal)

/-- Dict lookup `d.get(k)` / `d[k]`. -/
def PyDict.get (m : PyDict) (k : String) : Option MetaVal :=
  match m with
  | [] => none
  | (k2, v) :: rest => if k2 = k then some v else PyDict.get rest k

/-- Dict assignment `d[k] = v`: replaces in place when the key exists,
appends otherwise (insertion order preserved). -/
def PyDict.set (m : PyDict) (k : String) (v : MetaVal) : PyDict :=
  match m with
  | [] => [(k, v)]
  | (k2, v2) :: rest =>
    if k2 = k then (k2, v) :: rest else (k2, v2) :: PyDict.set rest k v

/-- `d.pop(k, None)`: remove the key when present. -/
def PyDict.pop (m : PyDict) (k : String) : PyDict :=
  match m with
  | [] => []
  | (k2, v) :: rest =>
    if k2 = k then PyDict.pop rest k else (k2, v) :: PyDict.pop rest k

/-- The concrete runtime class of a message object. -/
inductive MsgTag where
  | text
  | media
  | photo
  | file
deriving DecidableEq

/-- The attribute state of a constructed `Message` object: `_text` and
`_send_date` from the `Message` dataclass, the media attributes from
`MediaMessage.__init__` (unused and defaulted for `TextMessage`). -/
structure MessageState where
  tag : MsgTag
  _text : String
  _send_date : Nat
  _file_path : String
  _format : String
  _duration_seconds : Option Int
deriving DecidableEq

/-- `TextMessage(text, send_date)`: `__post_init__` replaces a missing
`send_date` with `now`; a `TextMessage` has no media attributes. -/
def TextMessage.mk (text : String) (send_date : Option Nat) (now : Nat) : MessageState :=
  { tag := MsgTag.text, _text := text, _send_date := send_date.getD now,
    _file_path := "", _format := "", _duration_seconds := none }

/-- `MediaMessage(message, file_path, format, duration_seconds)`:
`super().__init__(message)` leaves `_send_date = None`, so
`__post_init__` sets it to `now`. -/
def MediaMessage.mk (message file_path format : String)
    (duration_seconds : Option Int) (now : Nat) : MessageState :=
  { tag := MsgTag.media, _text := message, _send_date := now,
    _file_path := file_path, _format := format,
    _duration_seconds := duration_seconds }

/-- `PhotoMessage(message, file_path, format)`: delegates to
`MediaMessage.__init__` with `duration_seconds=None`. -/
def PhotoMessage.mk (message file_path format : String) (now : Nat) : MessageState :=
  { MediaMessage.mk message file_path format none now with tag := MsgTag.photo }

/-- `FileMessage(message, file_path, format)`: delegates to
`MediaMessage.__init__` with `duration_seconds=None`. -/
def FileMessage.mk (message file_path format : String) (now : Nat) : MessageState :=
  { MediaMessage.mk message file_path format none now with tag := MsgTag.file }

/-- `MediaMessage.metadata`: the base dict, plus `duration_seconds`
when `self.duration_seconds is not None`. -/
def MediaMessage.metadataOf (s : MessageState) : PyDict :=
  let meta : PyDict :=
    [("type", MetaVal.str "media"), ("text", MetaVal.str s._text),
     ("file_path", MetaVal.str s._file_path), ("format", MetaVal.str s._format)]
  match s._duration_seconds with
  | some d => PyDict.set meta "duration_seconds" (MetaVal.int d)
  | none => meta

/-- Virtual dispatch of `message.metadata()` on the concrete class:
`TextMessage.metadata`, `MediaMessage.metadata`, or the photo/file
overrides (which overwrite `type` and pop `duration_seconds`). -/
def metadata (s : MessageState) : PyDict :=
  match s.tag with
  | MsgTag.text => [("type", MetaVal.str "text"), ("text", MetaVal.str s._text)]
  | MsgTag.media => MediaMessage.metadataOf s
  | MsgTag.photo =>
    PyDict.pop (PyDict.set (MediaMessage.metadataOf s) "type" (MetaVal.str "photo")) "duration_seconds"
  | MsgTag.file =>
    PyDict.pop (PyDict.set (MediaMessage.metadataOf s) "type" (MetaVal.str "file")) "duration_seconds"

/-- Exceptions that can cross `channel.send`: the two declared exception
classes, and `other` for any remaining `Exception` (e.g. a `KeyError`). -/
inductive PyError where
  | invalidRecipient (kind : String) (offending : List Char)
  | unsupportedMessage (detail : String)
  | other (detail : String)
deriving DecidableEq

/-- `PhoneChannel._validate_phone`: strip, drop one leading `+`, then
require all digits and length between 8 and 15; on violation raise
`InvalidRecipientError(f"Telefone inválido: {recipient!r}")`, which
carries the validator's argument. -/
def validate_phone (recipient : List Char) : Except PyError Unit :=
  let r := pyStrip recipient
  let r2 := if pyStartswith r '+' then r.tail else r
  if ¬ (pyIsdigit r2 = true) ∨ ¬ (8 ≤ r2.length ∧ r2.length ≤ 15) then
    Except.error (PyError.invalidRecipient "Telefone inválido" recipient)
  else
    Except.ok ()

/-- `UserChannel._validate_username`: strip, then require non-empty and
at most 50 characters; on violation raise
`InvalidRecipientError(f"Usuário inválido: {recipient!r}")`. -/
def validate_username (recipient : List Char) : Except PyError Unit :=
  let r := pyStrip recipient
  if r = [] ∨ r.length > 50 then
    Except.error (PyError.invalidRecipient "Usuário inválido" recipient)
  else
    Except.ok ()

/-- The four concrete channel classes. -/
inductive ChannelKind where
  | whatsApp
  | telegram
  | facebook
  | instagram
deriving DecidableEq

/-- The channel name printed in delivery reports. -/
def channelName : ChannelKind → String
  | ChannelKind.whatsApp => "WhatsApp"
  | ChannelKind.telegram => "Telegram"
  | ChannelKind.facebook => "Facebook"
  | ChannelKind.instagram => "Instagram"

/-- The information every channel's success path prints: channel name,
recipient as passed in, `meta['type']`, `meta.get('text')`, and — only
when `meta['type'] != "text"` — `meta.get('file_path')` and
`meta.get('format')`. -/
structure Report where
  channel : String
  recipient : List Char
  msgType : MetaVal
  text : Option MetaVal
  fileInfo : Option (Option MetaVal × Option MetaVal)
deriving DecidableEq

/-- The shared print block of the four `send` methods. `meta['type']`
is dict indexing, so a missing key would raise a `KeyError` (modelled
as `PyError.other`). -/
def emitReport (name : String) (recipient : List Char) (meta : PyDict) :
    Except PyError Report :=
  match PyDict.get meta "type" with
  | none => Except.error (PyError.other "KeyError: type")
  | some t =>
    Except.ok
      { channel := name, recipient := recipient, msgType := t,
        text := PyDict.get meta "text",
        fileInfo :=
          if t ≠ MetaVal.str "text" then
            some (PyDict.get meta "file_path", PyDict.get meta "format")
          else none }

/-- Telegram's shape heuristic on the stripped recipient `r`:
`r.startswith("@") or (not r.startswith("+") and not r.replace("+", "").isdigit())`. -/
def TelegramChannel.usernameCond (r : List Char) : Bool :=
  pyStartswith r '@' ||
    (!pyStartswith r '+' && !pyIsdigit (r.filter (fun c => !(c == '+'))))

/-- Virtual dispatch of `channel.send(message, recipient)` over the four
concrete channels. -/
def send (c : ChannelKind) (msg : MessageState) (recipient : List Char) :
    Except PyError Report :=
  match c with
  | ChannelKind.whatsApp =>
    match validate_phone recipient with
    | Except.error e => Except.error e
    | Except.ok _ => emitReport "WhatsApp" recipient (metadata msg)
  | ChannelKind.telegram =>
    let r := pyStrip recipient
    match (if TelegramChannel.usernameCond r then validate_username r else validate_phone r) with
    | Except.error e => Except.error e
    | Except.ok _ => emitReport "Telegram" recipient (metadata msg)
  | ChannelKind.facebook =>
    match validate_username recipient with
    | Except.error e => Except.error e
    | Except.ok _ => emitReport "Facebook" recipient (metadata msg)
  | ChannelKind.instagram =>
    match validate_username recipient with
    | Except.error e => Except.error e
    | Except.ok _ => emitReport "Instagram" recipient (metadata msg)

/-- The caller-visible outcome of a dispatch call. -/
inductive Outcome where
  | sent (report : Report)
  | failedInvalidRecipient (kind : String) (offending : List Char)
  | failedUnsupportedMessage (detail : String)
  | failedUnexpected (detail : String)
deriving DecidableEq

/-- The except-clauses of `send_message_to_channel`: each caught
exception class becomes a reported, non-fatal outcome. -/
def outcomeOf : Except PyError Report → Outcome
  | Except.ok rep => Outcome.sent rep
  | Except.error (PyError.invalidRecipient k o) => Outcome.failedInvalidRecipient k o
  | Except.error (PyError.unsupportedMessage d) => Outcome.failedUnsupportedMessage d
  | Except.error (PyError.other d) => Outcome.failedUnexpected d

/-- `send_message_to_channel(channel, message, recipient)`: invoke the
channel's `send` and convert any raised exception into an outcome. -/
def send_message_to_channel (c : ChannelKind) (msg : MessageState)
    (recipient : List Char) : Outcome :=
  outcomeOf (send c msg recipient)

/-- Recognizer for the unsupported-message failure outcome. -/
def isUnsupportedOutcome : Outcome → Bool
  | Outcome.failedUnsupportedMessage _ => true
  | _ => false

/-- Recognizer for a raised `UnsupportedMessageError`. -/
def isUnsupportedError : Except PyError Report → Bool
  | Except.error (PyError.unsupportedMessage _) => true
  | _ => false

/-- The `type` metadata key each concrete message class reports. -/
def tagString : MsgTag → String
  | MsgTag.text => "text"
  | MsgTag.media => "media"
  | MsgTag.photo => "photo"
  | MsgTag.file => "file"

/-! Helper lemmas about the dict operations and metadata views. -/

theorem PyDict.get_pop_self (m : PyDict) (k : String) :
    PyDict.get (PyDict.pop m k) k = none := by
  induction m with
  | nil => rfl
  | cons hd tl ih =>
    obtain ⟨k2, v⟩ := hd
    by_cases h : k2 = k <;> simp [PyDict.pop, PyDict.get, h, ih]

theorem metadata_get_type (s : MessageState) :
    PyDict.get (metadata s) "type" = some (MetaVal.str (tagString s.tag)) := by
  obtain ⟨tag, t, sd, fp, fmt, dur⟩ := s
  cases tag <;> cases dur <;> rfl

theorem metadata_get_text (s : MessageState) :
    PyDict.get (metadata s) "text" = some (MetaVal.str s._text) := by
  obtain ⟨tag, t, sd, fp, fmt, dur⟩ := s
  cases tag <;> cases dur <;> rfl

theorem metadata_get_file_path (s : MessageState) (h : s.tag ≠ MsgTag.text) :
    PyDict.get (metadata s) "file_path" = some (MetaVal.str s._file_path) := by
  obtain ⟨tag, t, sd, fp, fmt, dur⟩ := s
  cases tag
  · exact absurd rfl h
  all_goals cases dur <;> rfl

theorem metadata_get_format (s : MessageState) (h : s.tag ≠ MsgTag.text) :
    PyDict.get (metadata s) "format" = some (MetaVal.str s._format) := by
  obtain ⟨tag, t, sd, fp, fmt, dur⟩ := s
  cases tag
  · exact absurd rfl h
  all_goals cases dur <;> rfl

theorem metadata_send_date (s : MessageState) (d : Nat) :
    metadata { s with _send_date := d } = metadata s := rfl

/-- `emitReport` on an actual message metadata view never hits the
`KeyError` branch: `type` is always present. -/
theorem emitReport_metadata (name : String) (recipient : List Char) (msg : MessageState) :
    emitReport name recipient (metadata msg) =
      Except.ok
        { channel := name, recipient := recipient,
          msgType := MetaVal.str (tagString msg.tag),
          text := PyDict.get (metadata msg) "text",
          fileInfo :=
            if MetaVal.str (tagString msg.tag) ≠ MetaVal.str "text" then
              some (PyDict.get (metadata msg) "file_path", PyDict.get (metadata msg) "format")
            else none } := by
  unfold emitReport
  rw [metadata_get_type]

theorem validate_phone_cases (r : List Char) :
    validate_phone r = Except.ok () ∨
      validate_phone r = Except.error (PyError.invalidRecipient "Telefone inválido" r) := by
  unfold validate_phone
  dsimp only
  split <;> split
  · exact Or.inr rfl
  · exact Or.inl rfl
  · exact Or.inr rfl
  · exact Or.inl rfl

theorem validate_username_cases (r : List Char) :
    validate_username r = Except.ok () ∨
      validate_username r = Except.error (PyError.invalidRecipient "Usuário inválido" r) := by
  unfold validate_username
  dsimp only
  split
  · exact Or.inr rfl
  · exact Or.inl rfl

/-- Every exception a `send` raises is an `InvalidRecipientError`. -/
theorem send_error_shape (c : ChannelKind) (msg : MessageState) (recipient : List Char)
    (e : PyError) (h : send c msg recipient = Except.error e) :
    ∃ kind off, e = PyError.invalidRecipient kind off := by
  cases c
  case whatsApp =>
    rcases validate_phone_cases recipient with hv | hv <;>
      simp only [send, hv] at h
    · rw [emitReport_metadata] at h
      exact Except.noConfusion h
    · injection h with h2
      exact ⟨_, _, h2.symm⟩
  case telegram =>
    cases hc : TelegramChannel.usernameCond (pyStrip recipient)
    · rcases validate_phone_cases (pyStrip recipient) with hv | hv <;>
        simp only [send, hc, Bool.false_eq_true, if_false, hv] at h
      · rw [emitReport_metadata] at h
        exact Except.noConfusion h
      · injection h with h2
        exact ⟨_, _, h2.symm⟩
    · rcases validate_username_cases (pyStrip recipient) with hv | hv <;>
        simp only [send, hc, if_true, hv] at h
      · rw [emitReport_metadata] at h
        exact Except.noConfusion h
      · injection h with h2
        exact ⟨_, _, h2.symm⟩
  case facebook =>
    rcases validate_username_cases recipient with hv | hv <;>
      simp only [send, hv] at h
    · rw [emitReport_metadata] at h
      exact Except.noConfusion h
    · injection h with h2
      exact ⟨_, _, h2.symm⟩
  case instagram =>
    rcases validate_username_cases recipient with hv | hv <;>
      simp only [send, hv] at h
    · rw [emitReport_metadata] at h
      exact Except.noConfusion h
    · injection h with h2
      exact ⟨_, _, h2.symm⟩

/-- The Telegram shape heuristic, spelled out. -/
theorem tg_usernameCond_iff (r : List Char) :
    TelegramChannel.usernameCond r = true ↔
      (pyStartswith r '@' = true ∨
        (pyStartswith r '+' = false ∧
         pyIsdigit (r.filter (fun c => !(c == '+'))) = false)) := by
  simp [TelegramChannel.usernameCond]

theorem validate_phone_ok_iff (recipient : List Char) :
    validate_phone recipient = Except.ok () ↔
      (pyIsdigit (if pyStartswith (pyStrip recipient) '+' then
          (pyStrip recipient).tail else pyStrip recipient) = true ∧
       8 ≤ (if pyStartswith (pyStrip recipient) '+' then
          (pyStrip recipient).tail else pyStrip recipient).length ∧
       (if pyStartswith (pyStrip recipient) '+' then
          (pyStrip recipient).tail else pyStrip recipient).length ≤ 15) := by
  unfold validate_phone
  dsimp only
  split
  all_goals
    split <;> rename_i hcond
    case isTrue =>
      constructor
      · intro h
        simp at h
      · rintro ⟨h1, h2, h3⟩
        rcases hcond with hc | hc
        · exact absurd h1 hc
        · exact absurd ⟨h2, h3⟩ hc
    case isFalse =>
      push_neg at hcond
      exact iff_of_true rfl ⟨hcond.1, hcond.2.1, hcond.2.2⟩

theorem validate_username_ok_iff (recipient : List Char) :
    validate_username recipient = Except.ok () ↔
      ((pyStrip recipient).isEmpty = false ∧ (pyStrip recipient).length ≤ 50) := by
  unfold validate_username
  dsimp only
  split
  case isTrue hcond =>
    constructor
    · intro h
      simp at h
    · rintro ⟨h1, h2⟩
      rcases hcond with h | h
      · rw [h] at h1
        simp at h1
      · omega
  case isFalse hcond =>
    push_neg at hcond
    refine iff_of_true rfl ⟨?_, hcond.2⟩
    cases hp : pyStrip recipient
    · exact absurd hp hcond.1
    · rfl

/-- Dropping one leading plus and checking all-digits-with-length-8-to-15
is the same as matching an optional plus followed by 8 to 15 digits. -/
theorem phone_shape_iff (l : List Char) :
    (pyIsdigit (if pyStartswith l '+' then l.tail else l) = true ∧
     8 ≤ (if pyStartswith l '+' then l.tail else l).length ∧
     (if pyStartswith l '+' then l.tail else l).length ≤ 15) ↔
      ∃ ds : List Char, (l = ds ∨ l = '+' :: ds) ∧
        ds.all Char.isDigit = true ∧ 8 ≤ ds.length ∧ ds.length ≤ 15 := by
  cases l with
  | nil =>
    constructor
    · rintro ⟨hd, h8, h15⟩
      simp [pyStartswith, pyIsdigit] at hd
    · rintro ⟨ds, hds, hall, h8, h15⟩
      rcases hds with h | h
      · rw [← h] at h8
        simp at h8
      · exact List.noConfusion h
  | cons a as =>
    by_cases ha : a = '+'
    · subst ha
      have hs : pyStartswith ('+' :: as) '+' = true := by simp [pyStartswith]
      rw [if_pos hs]
      constructor
      · rintro ⟨hd, h8, h15⟩
        rw [pyIsdigit, Bool.and_eq_true] at hd
        exact ⟨as, Or.inr rfl, hd.2, h8, h15⟩
      · rintro ⟨ds, hds, hall, h8, h15⟩
        rcases hds with h | h
        · rw [← h, List.all_cons, Bool.and_eq_true] at hall
          have : Char.isDigit '+' = false := rfl
          rw [this] at hall
          exact absurd hall.1 (by simp)
        · injection h with h1 h2
          subst h2
          refine ⟨?_, h8, h15⟩
          rw [pyIsdigit, Bool.and_eq_true]
          refine ⟨?_, hall⟩
          cases as with
          | nil => simp at h8
          | cons d rest => rfl
    · have hb : (a == '+') = false := by
        simp only [beq_eq_false_iff_ne, ne_eq]
        exact ha
      have hs : pyStartswith (a :: as) '+' = false := by simp [pyStartswith, hb]
      rw [if_neg (by rw [hs]; exact Bool.false_ne_true)]
      constructor
      · rintro ⟨hd, h8, h15⟩
        rw [pyIsdigit, Bool.and_eq_true] at hd
        exact ⟨a :: as, Or.inl rfl, hd.2, h8, h15⟩
      · rintro ⟨ds, hds, hall, h8, h15⟩
        rcases hds with h | h
        · rw [h]
          refine ⟨?_, h8, h15⟩
          rw [pyIsdigit, Bool.and_eq_true]
          refine ⟨?_, hall⟩
          cases ds with
          | nil => simp at h8
          | cons d rest => rfl
        · injection h with h1
          exact absurd h1 ha

/-! Claim theorems. -/

/-- C1 (amended): Telegram classifies the stripped recipient before
validating: the username validator is applied iff the recipient starts
with an at sign, or it does not start with a plus sign and, after
removing every plus sign, is not entirely digits; otherwise the phone
validator is applied (so an all-digit string such as `12345` reaches the
phone validator and fails there rather than being reinterpreted as a
username). -/
theorem c1_telegram_shape_detection (msg : MessageState) (recipient : List Char) :
    ((pyStartswith (pyStrip recipient) '@' = true ∨
        (pyStartswith (pyStrip recipient) '+' = false ∧
         pyIsdigit ((pyStrip recipient).filter (fun c => !(c == '+'))) = false)) →
      send ChannelKind.telegram msg recipient =
        (match validate_username (pyStrip recipient) with
          | Except.error e => Except.error e
          | Except.ok _ => emitReport "Telegram" recipient (metadata msg))) ∧
    (¬ (pyStartswith (pyStrip recipient) '@' = true ∨
        (pyStartswith (pyStrip recipient) '+' = false ∧
         pyIsdigit ((pyStrip recipient).filter (fun c => !(c == '+'))) = false)) →
      send ChannelKind.telegram msg recipient =
        (match validate_phone (pyStrip recipient) with
          | Except.error e => Except.error e
          | Except.ok _ => emitReport "Telegram" recipient (metadata msg))) := by
  constructor
  · intro h
    have hc : TelegramChannel.usernameCond (pyStrip recipient) = true :=
      (tg_usernameCond_iff (pyStrip recipient)).mpr h
    simp only [send, hc, if_true]
  · intro h
    have hc : TelegramChannel.usernameCond (pyStrip recipient) = false := by
      cases hb : TelegramChannel.usernameCond (pyStrip recipient)
      · rfl
      · exact absurd ((tg_usernameCond_iff (pyStrip recipient)).mp hb) h
    simp only [send, hc, Bool.false_eq_true, if_false]

/-- C1 witness: `@alice` takes the username path. -/
theorem c1_telegram_shape_detection_witness :
    send ChannelKind.telegram (TextMessage.mk "hi" none 0) ['@','a','l','i','c','e'] =
      (match validate_username (pyStrip ['@','a','l','i','c','e']) with
        | Except.error e => Except.error e
        | Except.ok _ => emitReport "Telegram" ['@','a','l','i','c','e']
            (metadata (TextMessage.mk "hi" none 0))) :=
  (c1_telegram_shape_detection (TextMessage.mk "hi" none 0)
    ['@','a','l','i','c','e']).1 (Or.inl (by decide))

/-- C1 counterexample: `+abc` is not entirely digits after removing plus
signs, so under the claim's stated rule the username validator — which
accepts it — would run; the code instead takes the phone path because
the string starts with a plus sign, and dispatch fails with the phone
validator's error. -/
theorem c1_counterexample :
    pyIsdigit ((pyStrip ['+','a','b','c']).filter (fun c => !(c == '+'))) = false ∧
    validate_username (pyStrip ['+','a','b','c']) = Except.ok () ∧
    send_message_to_channel ChannelKind.telegram (TextMessage.mk "hi" none 0)
        ['+','a','b','c'] =
      Outcome.failedInvalidRecipient "Telefone inválido" ['+','a','b','c'] :=
  ⟨by decide, rfl, by decide⟩

/-- C2: dispatch never raises: for every channel, message and recipient,
`send_message_to_channel` yields an outcome that is a success or one of
exactly three failure kinds (invalid recipient, unsupported message,
unexpected), and the catch-all clause converts any exception other than
the two declared ones into an unexpected-failure outcome carrying the
underlying description. -/
theorem c2_dispatch_never_raises (c : ChannelKind) (msg : MessageState)
    (recipient : List Char) (s : String) :
    ((∃ rep, send_message_to_channel c msg recipient = Outcome.sent rep) ∨
     (∃ kind off, send_message_to_channel c msg recipient =
        Outcome.failedInvalidRecipient kind off) ∨
     (∃ d, send_message_to_channel c msg recipient =
        Outcome.failedUnsupportedMessage d) ∨
     (∃ d, send_message_to_channel c msg recipient =
        Outcome.failedUnexpected d)) ∧
    outcomeOf (Except.error (PyError.other s)) = Outcome.failedUnexpected s := by
  constructor
  · cases hs : send c msg recipient
    case ok rep =>
      exact Or.inl ⟨rep, by simp [send_message_to_channel, hs, outcomeOf]⟩
    case error e =>
      obtain ⟨kind, off, rfl⟩ := send_error_shape c msg recipient e hs
      exact Or.inr (Or.inl ⟨kind, off,
        by simp [send_message_to_channel, hs, outcomeOf]⟩)
  · rfl

/-- C6: for every constructed message of any variant, the metadata view
contains `type` and `text`, with `text` equal to the construction-time
text and `type` the concrete variant's tag (`text`, `media`, `photo`,
`file`), never the abstract base name; media variants additionally carry
`file_path` and `format`, and `duration_seconds` exactly when a duration
was supplied (generic media), never for photo and file. -/
theorem c6_metadata_view (t fp fmt : String) (dur : Option Int)
    (sd : Option Nat) (now : Nat) :
    (PyDict.get (metadata (TextMessage.mk t sd now)) "type" = some (MetaVal.str "text") ∧
     PyDict.get (metadata (TextMessage.mk t sd now)) "text" = some (MetaVal.str t)) ∧
    (PyDict.get (metadata (MediaMessage.mk t fp fmt dur now)) "type" = some (MetaVal.str "media") ∧
     PyDict.get (metadata (MediaMessage.mk t fp fmt dur now)) "text" = some (MetaVal.str t) ∧
     PyDict.get (metadata (MediaMessage.mk t fp fmt dur now)) "file_path" = some (MetaVal.str fp) ∧
     PyDict.get (metadata (MediaMessage.mk t fp fmt dur now)) "format" = some (MetaVal.str fmt) ∧
     PyDict.get (metadata (MediaMessage.mk t fp fmt dur now)) "duration_seconds" = dur.map MetaVal.int) ∧
    (PyDict.get (metadata (PhotoMessage.mk t fp fmt now)) "type" = some (MetaVal.str "photo") ∧
     PyDict.get (metadata (PhotoMessage.mk t fp fmt now)) "text" = some (MetaVal.str t) ∧
     PyDict.get (metadata (PhotoMessage.mk t fp fmt now)) "file_path" = some (MetaVal.str fp) ∧
     PyDict.get (metadata (PhotoMessage.mk t fp fmt now)) "format" = some (MetaVal.str fmt) ∧
     PyDict.get (metadata (PhotoMessage.mk t fp fmt now)) "duration_seconds" = none) ∧
    (PyDict.get (metadata (FileMessage.mk t fp fmt now)) "type" = some (MetaVal.str "file") ∧
     PyDict.get (metadata (FileMessage.mk t fp fmt now)) "text" = some (MetaVal.str t) ∧
     PyDict.get (metadata (FileMessage.mk t fp fmt now)) "file_path" = some (MetaVal.str fp) ∧
     PyDict.get (metadata (FileMessage.mk t fp fmt now)) "format" = some (MetaVal.str fmt) ∧
     PyDict.get (metadata (FileMessage.mk t fp fmt now)) "duration_seconds" = none) := by
  cases dur <;>
    exact ⟨⟨rfl, rfl⟩, ⟨rfl, rfl, rfl, rfl, rfl⟩,
      ⟨rfl, rfl, rfl, rfl, rfl⟩, ⟨rfl, rfl, rfl, rfl, rfl⟩⟩

/-- C7: photo and file messages never expose a `duration_seconds`
metadata key — the `metadata` overrides pop it for any object of those
classes — and their constructors force the stored duration to be absent. -/
theorem c7_photo_file_no_duration (s : MessageState) (t fp fmt : String) (now : Nat) :
    (s.tag = MsgTag.photo ∨ s.tag = MsgTag.file →
      PyDict.get (metadata s) "duration_seconds" = none) ∧
    (PhotoMessage.mk t fp fmt now)._duration_seconds = none ∧
    (FileMessage.mk t fp fmt now)._duration_seconds = none := by
  refine ⟨?_, rfl, rfl⟩
  intro h
  obtain ⟨tag, tx, sd, fpx, fmx, dur⟩ := s
  rcases h with h | h <;> simp only at h <;> subst h <;>
    simp [metadata, PyDict.get_pop_self]

/-- C7 witness: a concrete photo message has no duration key. -/
theorem c7_photo_file_no_duration_witness :
    PyDict.get (metadata (PhotoMessage.mk "a" "p" "jpg" 0)) "duration_seconds" = none :=
  (c7_photo_file_no_duration (PhotoMessage.mk "a" "p" "jpg" 0) "a" "p" "jpg" 0).1
    (Or.inl rfl)

/-- C3: the phone validator (used by WhatsApp and by Telegram's phone
path) accepts exactly the strings that, after stripping surrounding
whitespace, consist of an optional leading plus sign followed by 8 to 15
decimal digits; every other string raises `InvalidRecipientError` for
that input. -/
theorem c3_phone_validator (recipient : List Char) :
    (validate_phone recipient = Except.ok () ↔
      ∃ ds : List Char,
        (pyStrip recipient = ds ∨ pyStrip recipient = '+' :: ds) ∧
        ds.all Char.isDigit = true ∧ 8 ≤ ds.length ∧ ds.length ≤ 15) ∧
    (validate_phone recipient = Except.ok () ∨
      validate_phone recipient =
        Except.error (PyError.invalidRecipient "Telefone inválido" recipient)) :=
  ⟨(validate_phone_ok_iff recipient).trans (phone_shape_iff (pyStrip recipient)),
   validate_phone_cases recipient⟩

/-- C3 witness: an 8-digit string is accepted. -/
theorem c3_phone_validator_witness :
    validate_phone ['1','2','3','4','5','6','7','8'] = Except.ok () :=
  (c3_phone_validator ['1','2','3','4','5','6','7','8']).1.mpr
    ⟨['1','2','3','4','5','6','7','8'], Or.inl (by decide), by decide,
     by decide, by decide⟩

/-- C4: the username validator (used by Facebook, Instagram and
Telegram's username path) accepts exactly the strings that are non-empty
and at most 50 characters after trimming; every other string raises
`InvalidRecipientError` for that input. -/
theorem c4_username_validator (recipient : List Char) :
    (validate_username recipient = Except.ok () ↔
      ((pyStrip recipient).isEmpty = false ∧ (pyStrip recipient).length ≤ 50)) ∧
    (validate_username recipient = Except.ok () ∨
      validate_username recipient =
        Except.error (PyError.invalidRecipient "Usuário inválido" recipient)) :=
  ⟨validate_username_ok_iff recipient, validate_username_cases recipient⟩

/-- C4 witness: a short username is accepted. -/
theorem c4_username_validator_witness :
    validate_username ['b','o','b'] = Except.ok () :=
  (c4_username_validator ['b','o','b']).1.mpr (by decide)

/-- C5 (amended): an `InvalidRecipient` failure from dispatch carries the
recipient exactly as the failing validator received it: the original
untrimmed caller input on WhatsApp, Facebook and Instagram, but the
trimmed recipient on Telegram, whose `send` strips before validating. -/
theorem c5_invalid_recipient_payload (c : ChannelKind) (msg : MessageState)
    (recipient : List Char) (kind : String) (off : List Char)
    (h : send_message_to_channel c msg recipient =
      Outcome.failedInvalidRecipient kind off) :
    off = (match c with
      | ChannelKind.telegram => pyStrip recipient
      | _ => recipient) := by
  cases c
  case whatsApp =>
    rcases validate_phone_cases recipient with hv | hv
    · simp [send_message_to_channel, send, hv, emitReport_metadata, outcomeOf] at h
    · simp only [send_message_to_channel, send, hv, outcomeOf] at h
      injection h with h1 h2
      exact h2.symm
  case telegram =>
    cases hc : TelegramChannel.usernameCond (pyStrip recipient)
    · rcases validate_phone_cases (pyStrip recipient) with hv | hv
      · simp [send_message_to_channel, send, hc, hv, emitReport_metadata,
          outcomeOf] at h
      · simp only [send_message_to_channel, send, hc, Bool.false_eq_true,
          if_false, hv, outcomeOf] at h
        injection h with h1 h2
        exact h2.symm
    · rcases validate_username_cases (pyStrip recipient) with hv | hv
      · simp [send_message_to_channel, send, hc, hv, emitReport_metadata,
          outcomeOf] at h
      · simp only [send_message_to_channel, send, hc, if_true, hv,
          outcomeOf] at h
        injection h with h1 h2
        exact h2.symm
  case facebook =>
    rcases validate_username_cases recipient with hv | hv
    · simp [send_message_to_channel, send, hv, emitReport_metadata, outcomeOf] at h
    · simp only [send_message_to_channel, send, hv, outcomeOf] at h
      injection h with h1 h2
      exact h2.symm
  case instagram =>
    rcases validate_username_cases recipient with hv | hv
    · simp [send_message_to_channel, send, hv, emitReport_metadata, outcomeOf] at h
    · simp only [send_message_to_channel, send, hv, outcomeOf] at h
      injection h with h1 h2
      exact h2.symm

/-- C5 witness: a failing WhatsApp dispatch echoes the caller's input. -/
theorem c5_invalid_recipient_payload_witness :
    (['a','b'] : List Char) = (match ChannelKind.whatsApp with
      | ChannelKind.telegram => pyStrip ['a','b']
      | _ => ['a','b']) :=
  c5_invalid_recipient_payload ChannelKind.whatsApp (TextMessage.mk "hi" none 0)
    ['a','b'] "Telefone inválido" ['a','b'] (by decide)

/-- C5 counterexample: Telegram validates the trimmed recipient, so the
failure for `" 123 "` carries `"123"`, not the original untrimmed input. -/
theorem c5_counterexample :
    send_message_to_channel ChannelKind.telegram (TextMessage.mk "hi" none 0)
        [' ', '1', '2', '3', ' '] =
      Outcome.failedInvalidRecipient "Telefone inválido" ['1', '2', '3'] ∧
    ('1' :: '2' :: '3' :: []) ≠ (' ' :: '1' :: '2' :: '3' :: ' ' :: ([] : List Char)) :=
  ⟨by decide, by decide⟩

/-- C8: whenever a channel's `send` succeeds, the delivery report carries
the channel name, the recipient as supplied, the message's metadata type
and text, and, for non-text messages, the message's file path and
format; in particular the Telegram media scenario from the spec yields
exactly that report. -/
theorem c8_success_report (c : ChannelKind) (msg : MessageState)
    (recipient : List Char) (rep : Report) :
    (send c msg recipient = Except.ok rep →
      rep.channel = channelName c ∧
      rep.recipient = recipient ∧
      rep.msgType = MetaVal.str (tagString msg.tag) ∧
      rep.text = some (MetaVal.str msg._text) ∧
      (msg.tag ≠ MsgTag.text →
        rep.fileInfo = some (some (MetaVal.str msg._file_path),
          some (MetaVal.str msg._format)))) ∧
    send_message_to_channel ChannelKind.telegram
        (MediaMessage.mk "v" "/tmp/video.mp4" "mp4" (some 120) 0)
        ['@','u','s','u','a','r','i','o','_','v','a','l','i','d','o'] =
      Outcome.sent
        { channel := "Telegram",
          recipient := ['@','u','s','u','a','r','i','o','_','v','a','l','i','d','o'],
          msgType := MetaVal.str "media",
          text := some (MetaVal.str "v"),
          fileInfo := some (some (MetaVal.str "/tmp/video.mp4"),
            some (MetaVal.str "mp4")) } := by
  constructor
  · intro h
    have hrep : rep =
        { channel := channelName c, recipient := recipient,
          msgType := MetaVal.str (tagString msg.tag),
          text := PyDict.get (metadata msg) "text",
          fileInfo := if MetaVal.str (tagString msg.tag) ≠ MetaVal.str "text" then
              some (PyDict.get (metadata msg) "file_path",
                PyDict.get (metadata msg) "format")
            else none } := by
      cases c
      case whatsApp =>
        rcases validate_phone_cases recipient with hv | hv <;>
          simp only [send, hv] at h
        · rw [emitReport_metadata] at h
          injection h with h2
          exact h2.symm
        · exact Except.noConfusion h
      case telegram =>
        cases hc : TelegramChannel.usernameCond (pyStrip recipient)
        · rcases validate_phone_cases (pyStrip recipient) with hv | hv <;>
            simp only [send, hc, Bool.false_eq_true, if_false, hv] at h
          · rw [emitReport_metadata] at h
            injection h with h2
            exact h2.symm
          · exact Except.noConfusion h
        · rcases validate_username_cases (pyStrip recipient) with hv | hv <;>
            simp only [send, hc, if_true, hv] at h
          · rw [emitReport_metadata] at h
            injection h with h2
            exact h2.symm
          · exact Except.noConfusion h
      case facebook =>
        rcases validate_username_cases recipient with hv | hv <;>
          simp only [send, hv] at h
        · rw [emitReport_metadata] at h
          injection h with h2
          exact h2.symm
        · exact Except.noConfusion h
      case instagram =>
        rcases validate_username_cases recipient with hv | hv <;>
          simp only [send, hv] at h
        · rw [emitReport_metadata] at h
          injection h with h2
          exact h2.symm
        · exact Except.noConfusion h
    subst hrep
    refine ⟨rfl, rfl, rfl, metadata_get_text msg, ?_⟩
    intro htag
    have hne : MetaVal.str (tagString msg.tag) ≠ MetaVal.str "text" := by
      intro heq
      injection heq with hs2
      cases hmt : msg.tag
      · exact htag hmt
      all_goals rw [hmt] at hs2; exact absurd hs2 (by decide)
    rw [if_pos hne, metadata_get_file_path msg htag, metadata_get_format msg htag]
  · decide

/-- C8 witness: the scenario report exposes the media file path and format. -/
theorem c8_success_report_witness :
    ({ channel := "Telegram",
       recipient := ['@','u','s','u','a','r','i','o','_','v','a','l','i','d','o'],
       msgType := MetaVal.str "media", text := some (MetaVal.str "v"),
       fileInfo := some (some (MetaVal.str "/tmp/video.mp4"),
         some (MetaVal.str "mp4")) } : Report).fileInfo =
      some (some (MetaVal.str "/tmp/video.mp4"), some (MetaVal.str "mp4")) :=
  ((c8_success_report ChannelKind.telegram
      (MediaMessage.mk "v" "/tmp/video.mp4" "mp4" (some 120) 0)
      ['@','u','s','u','a','r','i','o','_','v','a','l','i','d','o']
      { channel := "Telegram",
        recipient := ['@','u','s','u','a','r','i','o','_','v','a','l','i','d','o'],
        msgType := MetaVal.str "media", text := some (MetaVal.str "v"),
        fileInfo := some (some (MetaVal.str "/tmp/video.mp4"),
          some (MetaVal.str "mp4")) }).1 (by rfl)).2.2.2.2 (by decide)

/-- C9: no channel's `send` ever raises `UnsupportedMessageError`, so
the dispatcher's unsupported-message branch, though declared, is
unreachable: dispatch never produces an unsupported-message failure. -/
theorem c9_unsupported_unreachable (c : ChannelKind) (msg : MessageState)
    (recipient : List Char) :
    isUnsupportedError (send c msg recipient) = false ∧
    isUnsupportedOutcome (send_message_to_channel c msg recipient) = false := by
  cases hs : send c msg recipient
  case ok rep =>
    simp [send_message_to_channel, hs, outcomeOf, isUnsupportedError,
      isUnsupportedOutcome]
  case error e =>
    obtain ⟨kind, off, rfl⟩ := send_error_shape c msg recipient e hs
    simp [send_message_to_channel, hs, outcomeOf, isUnsupportedError,
      isUnsupportedOutcome]

/-- C10: the send timestamp never influences dispatch: two messages that
differ only in `_send_date` produce fully identical outcomes on every
channel and recipient — no report or failure detail embeds the timestamp. -/
theorem c10_send_date_noninterference (c : ChannelKind) (msg : MessageState)
    (recipient : List Char) (d1 d2 : Nat) :
    send_message_to_channel c { msg with _send_date := d1 } recipient =
      send_message_to_channel c { msg with _send_date := d2 } recipient := rfl

end Chatbot
